import Mathlib

/-!
Verification of the FEDzk experiment harness (round orchestration, attack
labeling, backend adapter fallback, transcript and metrics pipeline).

The definitions below are shallow embeddings of the Python sources:
  - `src/src/fedzk/experiments/attacks.py` (AttackConfig, label_for_client)
  - `src/src/fedzk/experiments/hooks.py` (ClientResult, backend CLI calls,
    run_round)
  - `src/spec/experiments/round_runner.py` (per-round transcript document)
  - `src/spec/experiments/table_timings.py` (metrics aggregation rows)
  - `src/spec/experiments/validate_transcripts.py` (schema validation loop)

Machine floats are modelled as rationals; Python `round(x, 2)` is modelled by
`pyRound2` (round half to even at two decimals); the external proof backend
is modelled as a deterministic map from commands to process results.
-/

/-- Resolved attack configuration, mirroring the `AttackConfig` dataclass in
`attacks.py` (the dataclass defaults are kind `"none"`, fraction 0, scale 3,
sparsity 95). -/
structure AttackConfig where
  kind : String
  fraction_malicious : ℚ
  scale : ℚ
  sparsity_pct : ℚ
deriving DecidableEq

/-- Raw `attack` sub-dictionary of a configuration: every key may be absent,
as in the Python dict handed to `AttackConfig.from_cfg`. -/
structure RawAttack where
  kind : Option String
  fraction_malicious : Option ℚ
  scale : Option ℚ
  sparsity_pct : Option ℚ

/-- Embedding of `AttackConfig.from_cfg` in `attacks.py`: reads each field
with `dict.get` defaults and builds the dataclass. The argument is the
optional `attack` entry of the configuration (`(cfg or {}).get("attack", {})`).
No field is range-checked. -/
def AttackConfig.from_cfg (a : Option RawAttack) : AttackConfig :=
  let a := a.getD ⟨none, none, none, none⟩
  { kind := a.kind.getD "none"
    fraction_malicious := a.fraction_malicious.getD 0
    scale := a.scale.getD 3
    sparsity_pct := a.sparsity_pct.getD 95 }

/-- Embedding of `label_for_client` in `attacks.py`. Python computes
`cutoff = int(total * ac.fraction_malicious)`; in the reachable branch the
product is nonnegative (`fraction_malicious > 0`, `total ≥ 0`), where Python
`int` truncation coincides with the floor. -/
def label_for_client (idx : ℕ) (total : ℕ) (ac : AttackConfig) : String :=
  if ac.kind = "none" ∨ ac.fraction_malicious ≤ 0 then "honest"
  else
    let cutoff : ℤ := ⌊(total : ℚ) * ac.fraction_malicious⌋
    if (idx : ℤ) < cutoff then "malicious" else "honest"

/-- Python `round(x, 2)` on our rational model of machine floats: round half
to even at two decimal places. -/
def pyRound2 (q : ℚ) : ℚ :=
  let x := q * 100
  let f : ℤ := ⌊x⌋
  let frac := x - (f : ℚ)
  let n : ℤ :=
    if frac < 1/2 then f
    else if 1/2 < frac then f + 1
    else if f % 2 = 0 then f else f + 1
  (n : ℚ) / 100

/-- Result of one `subprocess.run` of the backend CLI, as captured by `_run`
in `hooks.py`: return code, elapsed milliseconds, captured stdout. Return
codes are integers (Python uses negative codes for signals). -/
structure CallResult where
  rc : ℤ
  ms : ℚ
  out : String
deriving DecidableEq

/-- The four backend command forms used by `hooks.py`
(`generate --round n`, `verify --round n`, `verify-batch --round n`,
`verify --round n --batch`). -/
inductive Cmd where
  | generate (round_idx : ℕ)
  | verify (round_idx : ℕ)
  | verifyBatch (round_idx : ℕ)
  | verifyWithBatchFlag (round_idx : ℕ)
deriving DecidableEq

/-- The external proof backend, modelled as a deterministic map from a
command to the result of running it (a fixed round and backend always give
the same process result). -/
structure Backend where
  run : Cmd → CallResult

/-- Embedding of `_call_cli_generate` in `hooks.py`. -/
def _call_cli_generate (b : Backend) (round_idx : ℕ) : CallResult :=
  b.run (Cmd.generate round_idx)

/-- Embedding of `_call_cli_verify` in `hooks.py`. -/
def _call_cli_verify (b : Backend) (round_idx : ℕ) : CallResult :=
  b.run (Cmd.verify round_idx)

/-- Embedding of `_call_cli_verify_batch` in `hooks.py`: try
`verify-batch --round n`, then `verify --round n --batch`, return the first
attempt that exits with status 0; if both fail, fall back to the plain
`_call_cli_verify` and return its result unchanged. -/
def _call_cli_verify_batch (b : Backend) (round_idx : ℕ) : CallResult :=
  if (b.run (Cmd.verifyBatch round_idx)).rc = 0 then
    b.run (Cmd.verifyBatch round_idx)
  else if (b.run (Cmd.verifyWithBatchFlag round_idx)).rc = 0 then
    b.run (Cmd.verifyWithBatchFlag round_idx)
  else _call_cli_verify b round_idx

/-- Embedding of the `ClientResult` dataclass in `hooks.py`. -/
structure ClientResult where
  id : String
  proof_ok : Bool
  prove_ms : ℚ
  verify_ms : ℚ
  proof_size : ℕ
  commitment : Option String
  reject_reason : Option String
deriving DecidableEq

/-- The zk sub-configuration (`cfg["zk"]`) after resolving dict defaults. -/
structure ZkCfg where
  enabled : Bool
  batch_verify : Bool

/-- The resolved configuration fields read by `run_round` in `hooks.py`:
`clients`, the zk sub-configuration, the `signatures` flag, and the optional
`attack` sub-dictionary. -/
structure Cfg where
  clients : ℕ
  zk : ZkCfg
  signatures : Bool
  attack : Option RawAttack

/-- The timing-apportioning expression of `run_round` in `hooks.py`:
`prove_ms / clients if clients else prove_ms`. -/
def apportion (elapsed : ℚ) (clients : ℕ) : ℚ :=
  if clients ≠ 0 then elapsed / (clients : ℚ) else elapsed

/-- Embedding of `run_round` in `hooks.py`. The direct-integration branch of
the source is statically dead (`HAVE_DIRECT` is the constant `False`), so the
CLI path is the whole behavior: in zk mode call generate once and (batch or
plain) verify once, share `ok = rc_g == 0 and rc_v == 0` across all clients,
apportion timings, and set `reject_reason = "verify_failed|" + role` on
failure; in signatures-only or plain mode synthesize accepted results with
zero timings and no backend invocation. -/
def run_round (b : Backend) (cfg : Cfg) (round_idx : ℕ) : List ClientResult :=
  let clients := cfg.clients
  let ac := AttackConfig.from_cfg cfg.attack
  if cfg.zk.enabled then
    let g := _call_cli_generate b round_idx
    let v := if cfg.zk.batch_verify then _call_cli_verify_batch b round_idx
             else _call_cli_verify b round_idx
    let ok : Bool := g.rc == 0 && v.rc == 0
    (List.range clients).map (fun i =>
      { id := "c" ++ toString i
        proof_ok := ok
        prove_ms := pyRound2 (apportion g.ms clients)
        verify_ms := pyRound2 (apportion v.ms clients)
        proof_size := 0
        commitment := none
        reject_reason :=
          if ok then none
          else some ("verify_failed|" ++ label_for_client i clients ac) })
  else if cfg.signatures then
    (List.range clients).map (fun i =>
      { id := "c" ++ toString i, proof_ok := true, prove_ms := 0, verify_ms := 0
        proof_size := 0, commitment := none, reject_reason := none })
  else
    (List.range clients).map (fun i =>
      { id := "c" ++ toString i, proof_ok := true, prove_ms := 0, verify_ms := 0
        proof_size := 0, commitment := none, reject_reason := none })

/-- A transcript JSON value that is either a string or an array, enough to
express the elements the `accepted_clients` field of `round_runner.py` can
hold. -/
inductive JVal where
  | str (s : String)
  | arr (xs : List JVal)

/-- Discriminator for the model JSON values: `true` exactly on strings. -/
def JVal.isStr : JVal → Bool
  | .str _ => true
  | .arr _ => false

/-- One entry of the `clients` list written by `round_runner.py`. -/
structure RRClient where
  id : String
  commitment : String
  proof_ok : Bool
  proof_size : ℕ
  prove_ms : ℚ
  verify_ms : ℚ
deriving DecidableEq

/-- The round transcript document written by `round_runner.py` (hash and
params placeholders omitted from the model keep their literal values). -/
structure RRTranscript where
  round : ℕ
  model_hash : String
  clients : List RRClient
  accepted_clients : List JVal
  aggregate_hash : String
  batch_verify_enabled : Bool

/-- Embedding of the transcript construction in the loop body of `main` in
`round_runner.py`. Note the `accepted_clients` line of the source is the
Python expression `["c0" if rc_v == 0 else []]`: the conditional sits inside
the single-element list, so the else branch contributes an empty array as the
element. -/
def make_transcript (r : ℕ) (rc_p : ℤ) (prove_ms : ℚ) (rc_v : ℤ)
    (verify_ms : ℚ) (batch : Bool) : RRTranscript :=
  { round := r
    model_hash := "sha256:TODO"
    clients := [{ id := "c0", commitment := "TODO", proof_ok := rc_v == 0,
                  proof_size := 0, prove_ms := pyRound2 prove_ms,
                  verify_ms := pyRound2 verify_ms }]
    accepted_clients := [if rc_v == 0 then JVal.str "c0" else JVal.arr []]
    aggregate_hash := "sha256:TODO"
    batch_verify_enabled := batch }

/-- Ascending sort as produced by Python `sorted` on numbers. -/
def py_sorted (xs : List ℚ) : List ℚ :=
  List.insertionSort (· ≤ ·) xs

/-- Embedding of `statistics.median` on a numeric list as used by
`table_timings.py`: sort ascending, take the middle element for odd length,
the mean of the two middle elements for even length (the empty case is
unreachable behind the non-emptiness guard of `rows`). -/
def median (xs : List ℚ) : ℚ :=
  let s := py_sorted xs
  let n := s.length
  if n % 2 = 1 then s.getD (n / 2) 0
  else (s.getD (n / 2 - 1) 0 + s.getD (n / 2) 0) / 2

/-- The 90th-percentile convention of `table_timings.py`:
`sorted(xs)[int(0.9 * (len(xs) - 1))]`. For `len(xs) ≥ 1` the Python `int`
truncation of the nonnegative product coincides with the floor; the list is
indexed in bounds there, so the `getD` default is unreachable. -/
def p90 (xs : List ℚ) : ℚ :=
  (py_sorted xs).getD (⌊(9 : ℚ) / 10 * ((xs.length : ℚ) - 1)⌋).toNat 0

/-- One client entry as read back from a transcript by `table_timings.py`
(`c.get("prove_ms", 0.0)` / `c.get("verify_ms", 0.0)`). -/
structure TimingClient where
  prove_ms : ℚ
  verify_ms : ℚ
deriving DecidableEq

/-- One round transcript as read by `table_timings.py`. -/
structure RoundJson where
  round : ℕ
  clients : List TimingClient
deriving DecidableEq

/-- One CSV row produced by `table_timings.py`. -/
structure TimingRow where
  round : ℕ
  prove_p50 : ℚ
  verify_p50 : ℚ
  prove_p90 : ℚ
  verify_p90 : ℚ
deriving DecidableEq

/-- Embedding of the row-building loop of `table_timings.py`: for each round
transcript extract the per-client prove and verify timing lists and append a
row only when both lists are non-empty (`if prs and vrs`). -/
def table_rows (rounds : List RoundJson) : List TimingRow :=
  rounds.filterMap (fun j =>
    let prs := j.clients.map (fun c => c.prove_ms)
    let vrs := j.clients.map (fun c => c.verify_ms)
    if prs ≠ [] ∧ vrs ≠ [] then
      some { round := j.round
             prove_p50 := pyRound2 (median prs)
             verify_p50 := pyRound2 (median vrs)
             prove_p90 := pyRound2 (p90 prs)
             verify_p90 := pyRound2 (p90 vrs) }
    else none)

/-- Embedding of the error-collection loop of `main` in
`validate_transcripts.py`. The external `jsonschema` validator is abstracted
as a function `v` from a file content to its (path-ordered) list of violation
messages; the loop appends one `"<file>: <message>"` entry per violation of
every file, never stopping at the first. -/
def collect_errors {α : Type} (v : α → List String)
    (files : List (String × α)) : List String :=
  files.flatMap (fun f => (v f.2).map (fun m => f.1 ++ ": " ++ m))

/-- Exit status of `main` in `validate_transcripts.py`: `true` means the run
is reported valid (no `SystemExit` raised), which the source decides by
whether the collected error list is empty. -/
def validator_exit_ok {α : Type} (v : α → List String)
    (files : List (String × α)) : Bool :=
  (collect_errors v files).isEmpty

example : label_for_client 0 4 ⟨"scaling", 1/4, 3, 95⟩ = "malicious" := by
  with_unfolding_all decide
example : label_for_client 1 4 ⟨"scaling", 1/4, 3, 95⟩ = "honest" := by
  with_unfolding_all decide
example : label_for_client 2 10 ⟨"scaling", 3/10, 3, 95⟩ = "malicious" := by
  with_unfolding_all decide
example : label_for_client 3 10 ⟨"scaling", 3/10, 3, 95⟩ = "honest" := by
  with_unfolding_all decide
example : pyRound2 (mkRat 10 3) = mkRat 333 100 := by with_unfolding_all decide
example : pyRound2 (mkRat 25 1000) = mkRat 2 100 := by with_unfolding_all decide
example : pyRound2 (mkRat 35 1000) = mkRat 4 100 := by with_unfolding_all decide

/-- A backend on which every command succeeds with status 0. -/
def backendOk : Backend :=
  ⟨fun _ => ⟨0, 6, "ok"⟩⟩

/-- A backend on which every command fails with status 1. -/
def backendFail : Backend :=
  ⟨fun _ => ⟨1, 5, "err"⟩⟩

/-- A zk-enabled two-client configuration without batch verification. -/
def cfgZk : Cfg :=
  ⟨2, ⟨true, false⟩, false, none⟩

/-- A zk-enabled configuration with zero clients. -/
def cfgZero : Cfg :=
  ⟨0, ⟨true, false⟩, false, none⟩

/-- The attack configuration of the spec scenario: scaling attack with a
quarter of the clients malicious. -/
def acScaling : AttackConfig :=
  ⟨"scaling", 1/4, 3, 95⟩

/-- Claim C10: the Attack Injector label depends only on the attack kind and
`fraction_malicious`; two configurations agreeing on those two fields but
differing arbitrarily in `scale` and `sparsity_pct` produce identical labels
for every client index and total. -/
theorem C10_label_noninterference (idx total : ℕ) (k : String)
    (f s1 p1 s2 p2 : ℚ) :
    label_for_client idx total ⟨k, f, s1, p1⟩ =
      label_for_client idx total ⟨k, f, s2, p2⟩ :=
  rfl

/-- Claim C4: for a fixed round and backend, when `_call_cli_verify_batch`
reports failure, both batch-capable invocation forms failed with non-zero
status, the returned result is exactly the plain `_call_cli_verify` result,
and hence plain verify also reports failure (fallback monotonicity). -/
theorem C4_verify_batch_fallback_monotone (b : Backend) (r : ℕ)
    (h : (_call_cli_verify_batch b r).rc ≠ 0) :
    (b.run (Cmd.verifyBatch r)).rc ≠ 0 ∧
    (b.run (Cmd.verifyWithBatchFlag r)).rc ≠ 0 ∧
    _call_cli_verify_batch b r = _call_cli_verify b r ∧
    (_call_cli_verify b r).rc ≠ 0 := by
  unfold _call_cli_verify_batch at h ⊢
  by_cases h1 : (b.run (Cmd.verifyBatch r)).rc = 0
  · rw [if_pos h1] at h
    exact absurd h1 h
  · rw [if_neg h1] at h ⊢
    by_cases h2 : (b.run (Cmd.verifyWithBatchFlag r)).rc = 0
    · rw [if_pos h2] at h
      exact absurd h2 h
    · rw [if_neg h2] at h ⊢
      exact ⟨h1, h2, rfl, h⟩

/-- Witness for C4: on a backend failing every command, the hypothesis holds
and the conclusion of the fallback theorem evaluates as stated. -/
theorem C4_witness :
    ((_call_cli_verify_batch backendFail 0).rc ≠ 0) ∧
    ((backendFail.run (Cmd.verifyBatch 0)).rc ≠ 0 ∧
     (backendFail.run (Cmd.verifyWithBatchFlag 0)).rc ≠ 0 ∧
     _call_cli_verify_batch backendFail 0 = _call_cli_verify backendFail 0 ∧
     (_call_cli_verify backendFail 0).rc ≠ 0) :=
  ⟨by with_unfolding_all decide,
   C4_verify_batch_fallback_monotone backendFail 0 (by with_unfolding_all decide)⟩

/-- Claim C5 (code bug): `round_runner.py` writes
`"accepted_clients": ["c0" if rc_v == 0 else []]`, so on a failed verify the
field is a one-element list whose element is an empty array, not the empty
list of accepted ids the spec requires; the sole client of that transcript
has `proof_ok = false`, so the accepted list should have been `[]`. On a
successful verify the field is `["c0"]` as specified. -/
theorem C5_accepted_clients_code_bug :
    (make_transcript 0 0 5 1 7 false).accepted_clients = [JVal.arr []] ∧
    (make_transcript 0 0 5 1 7 false).accepted_clients.length = 1 ∧
    ((make_transcript 0 0 5 1 7 false).accepted_clients.all
      (fun v => v.isStr)) = false ∧
    ((make_transcript 0 0 5 1 7 false).clients.all
      (fun c => c.proof_ok)) = false ∧
    (make_transcript 0 0 5 0 7 false).accepted_clients = [JVal.str "c0"] :=
  ⟨rfl, rfl, rfl, rfl, rfl⟩

/-- Claim C8, counterexample: `AttackConfig.from_cfg` on an attack dictionary
with `fraction_malicious = 1.5` does not fail: it returns a configuration
carrying the out-of-range value unchanged, and the Attack Injector then
labels every client of a two-client round malicious. No configuration error
is raised before rounds execute. -/
theorem C8_counterexample :
    AttackConfig.from_cfg (some ⟨some "scaling", some (3/2), none, none⟩) =
      ⟨"scaling", 3/2, 3, 95⟩ ∧
    ¬ ((3 : ℚ)/2 ≤ 1) ∧
    label_for_client 0 2
      (AttackConfig.from_cfg (some ⟨some "scaling", some (3/2), none, none⟩)) =
      "malicious" ∧
    label_for_client 1 2
      (AttackConfig.from_cfg (some ⟨some "scaling", some (3/2), none, none⟩)) =
      "malicious" := by
  with_unfolding_all decide

/-- Claim C8, amended: configuration parsing performs no validation at all.
`AttackConfig.from_cfg` always succeeds and returns the raw `kind`,
`fraction_malicious`, `scale` and `sparsity_pct` values unchanged (with the
dataclass defaults for absent keys); in particular an out-of-range fraction
is neither rejected nor clamped. -/
theorem C8_amended_no_validation (a : RawAttack) :
    (AttackConfig.from_cfg (some a)).kind = a.kind.getD "none" ∧
    (AttackConfig.from_cfg (some a)).fraction_malicious =
      a.fraction_malicious.getD 0 ∧
    (AttackConfig.from_cfg (some a)).scale = a.scale.getD 3 ∧
    (AttackConfig.from_cfg (some a)).sparsity_pct = a.sparsity_pct.getD 95 :=
  ⟨rfl, rfl, rfl, rfl⟩

/-- Claim C6, counterexample: the apportioning expression of `run_round`
(`prove_ms / clients if clients else prove_ms`) evaluates to the full
elapsed time when `clients == 0`, not to 0 as the claim states. -/
theorem C6_counterexample :
    apportion 100 0 = 100 ∧ apportion 100 0 ≠ 0 := by
  with_unfolding_all decide

/-- Claim C1: in zk-enabled mode every `ClientResult` of the round carries
`proof_ok = (generate.rc == 0 && verify.rc == 0)`, where the verify result is
the batch one when `batch_verify` is set and the plain one otherwise; since
each result equals this one round-level flag, all clients of the round share
it. -/
theorem C1_round_success_flag (b : Backend) (cfg : Cfg) (r : ℕ)
    (hzk : cfg.zk.enabled = true) :
    (run_round b cfg r).all (fun res =>
      res.proof_ok ==
        ((_call_cli_generate b r).rc == 0 &&
         (if cfg.zk.batch_verify then _call_cli_verify_batch b r
          else _call_cli_verify b r).rc == 0)) = true := by
  rw [List.all_eq_true]
  intro res hres
  rw [run_round] at hres
  simp only [hzk, if_true, List.mem_map] at hres
  obtain ⟨i, -, rfl⟩ := hres
  exact beq_self_eq_true _

/-- Witness for C1: a concrete zk-enabled two-client round on an
all-succeeding backend. -/
theorem C1_witness :
    (cfgZk.zk.enabled = true) ∧
    (run_round backendOk cfgZk 0).all (fun res =>
      res.proof_ok ==
        ((_call_cli_generate backendOk 0).rc == 0 &&
         (if cfgZk.zk.batch_verify then _call_cli_verify_batch backendOk 0
          else _call_cli_verify backendOk 0).rc == 0)) = true :=
  ⟨rfl, C1_round_success_flag backendOk cfgZk 0 rfl⟩

/-- Claim C3: in every mode, for every client position of the round result
list, `reject_reason` is absent exactly when `proof_ok` is true, and when
present it is the fixed code `"verify_failed"` and the Attack-Injector role
of that client joined by a pipe. -/
theorem C3_reject_reason_iff (b : Backend) (cfg : Cfg) (r : ℕ) :
    (List.range cfg.clients).all (fun i =>
      match (run_round b cfg r).get? i with
      | none => false
      | some res =>
        match res.reject_reason with
        | none => res.proof_ok
        | some s =>
          !res.proof_ok &&
            (s == "verify_failed|" ++
              label_for_client i cfg.clients (AttackConfig.from_cfg cfg.attack))) =
      true := by
  rw [List.all_eq_true]
  intro i hi
  rw [List.mem_range] at hi
  rw [run_round]
  by_cases hzk : cfg.zk.enabled
  · simp only [hzk, if_true]
    rw [List.get?_map, List.get?_range hi]
    cases hok : ((_call_cli_generate b r).rc == 0 &&
        (if cfg.zk.batch_verify then _call_cli_verify_batch b r
         else _call_cli_verify b r).rc == 0) <;>
      simp [hok]
  · by_cases hs : cfg.signatures <;>
      · simp only [hzk, hs, if_true, if_false, Bool.false_eq_true]
        rw [List.get?_map, List.get?_range hi]
        rfl

/-- Claim C6, amended: in zk-enabled mode each `ClientResult` carries
`prove_ms` (resp. `verify_ms`) equal to the round-level generate (resp.
verify) elapsed time put through the apportioning expression and rounded to
two decimals; when `clients == 0` no `ClientResult` is produced at all, and
the apportioning expression itself yields the full elapsed time (not 0). -/
theorem C6_amended_apportionment (b : Backend) (cfg : Cfg) (r : ℕ) (e : ℚ)
    (hzk : cfg.zk.enabled = true) :
    (run_round b cfg r).all (fun res =>
      res.prove_ms ==
        pyRound2 (apportion (_call_cli_generate b r).ms cfg.clients) &&
      res.verify_ms ==
        pyRound2 (apportion
          (if cfg.zk.batch_verify then _call_cli_verify_batch b r
           else _call_cli_verify b r).ms cfg.clients)) = true ∧
    (cfg.clients = 0 → run_round b cfg r = []) ∧
    apportion e 0 = e := by
  refine ⟨?_, ?_, rfl⟩
  · rw [List.all_eq_true]
    intro res hres
    rw [run_round] at hres
    simp only [hzk, if_true, List.mem_map] at hres
    obtain ⟨i, -, rfl⟩ := hres
    rw [Bool.and_eq_true]
    exact ⟨beq_self_eq_true _, beq_self_eq_true _⟩
  · intro h0
    rw [run_round]
    simp [hzk, h0]

/-- Witness for C6: a zk-enabled zero-client round on an all-succeeding
backend, with a concrete elapsed time of 100 ms. -/
theorem C6_witness :
    (cfgZero.zk.enabled = true) ∧
    ((run_round backendOk cfgZero 0).all (fun res =>
      res.prove_ms ==
        pyRound2 (apportion (_call_cli_generate backendOk 0).ms cfgZero.clients) &&
      res.verify_ms ==
        pyRound2 (apportion
          (if cfgZero.zk.batch_verify then _call_cli_verify_batch backendOk 0
           else _call_cli_verify backendOk 0).ms cfgZero.clients)) = true ∧
    (cfgZero.clients = 0 → run_round backendOk cfgZero 0 = []) ∧
    apportion 100 0 = (100 : ℚ)) :=
  ⟨rfl, C6_amended_apportionment backendOk cfgZero 0 100 rfl⟩

/-- A one-round list whose single transcript has one client, used to
instantiate the aggregator theorems. -/
def roundsW : List RoundJson :=
  [⟨0, [⟨1, 2⟩]⟩]

/-- A round transcript with no clients at all (empty timing lists). -/
def emptyRound : RoundJson :=
  ⟨1, []⟩

/-- Claim C7: the aggregator 90th percentile of `[10, 20, 30, 40, 50]` is the
element at index `floor(0.9 * 4) = 3` of the ascending sort, namely 40, and a
round whose prove and verify timing lists are empty contributes no row to the
timings table. -/
theorem C7_p90_convention (pre post : List RoundJson) (j : RoundJson)
    (hj : j.clients = []) :
    p90 [10, 20, 30, 40, 50] = 40 ∧
    (⌊(9 : ℚ) / 10 * ((5 : ℚ) - 1)⌋).toNat = 3 ∧
    table_rows (pre ++ j :: post) = table_rows pre ++ table_rows post := by
  refine ⟨by with_unfolding_all decide, by with_unfolding_all decide, ?_⟩
  rw [table_rows, List.filterMap_append, List.filterMap_cons]
  simp [hj, table_rows]

/-- Witness for C7: a clientless transcript between one-client transcripts
drops out of the table. -/
theorem C7_witness :
    (emptyRound.clients = []) ∧
    (p90 [10, 20, 30, 40, 50] = 40 ∧
     (⌊(9 : ℚ) / 10 * ((5 : ℚ) - 1)⌋).toNat = 3 ∧
     table_rows (roundsW ++ emptyRound :: []) =
       table_rows roundsW ++ table_rows []) :=
  ⟨rfl, C7_p90_convention roundsW [] emptyRound rfl⟩

/-- Claim C9: the validator collects one `"<file>: <message>"` entry for
every violation of every transcript file (so the number of collected entries
is the total number of violations, and each formatted entry occurs in the
collected list), and it reports the run invalid (non-zero exit) exactly when
at least one file has at least one violation. -/
theorem C9_validator_collects_all {α : Type} (v : α → List String)
    (files : List (String × α)) :
    (collect_errors v files).length =
      (files.map (fun f => (v f.2).length)).sum ∧
    (validator_exit_ok v files = false ↔
      files.any (fun f => !(v f.2).isEmpty) = true) ∧
    files.all (fun f => (v f.2).all (fun m =>
      (collect_errors v files).contains (f.1 ++ ": " ++ m))) = true := by
  refine ⟨?_, ?_, ?_⟩
  · induction files with
    | nil => rfl
    | cons f fs ih =>
      have h : collect_errors v (f :: fs) =
          (v f.2).map (fun m => f.1 ++ ": " ++ m) ++ collect_errors v fs := rfl
      rw [h, List.length_append, List.length_map, List.map_cons, List.sum_cons, ih]
  · rw [validator_exit_ok, collect_errors]
    simp [List.flatMap_eq_nil_iff, List.any_eq_true, List.isEmpty_iff]
  · rw [List.all_eq_true]
    intro f hf
    rw [List.all_eq_true]
    intro m hm
    rw [List.elem_iff, collect_errors, List.mem_flatMap]
    exact ⟨f, hf, List.mem_map_of_mem _ hm⟩

/-- The number of elements of `range n` below `k` is `min k n`. -/
theorem length_filter_range_lt (n k : ℕ) :
    ((List.range n).filter (fun i => decide (i < k))).length = min k n := by
  induction n with
  | zero => simp
  | succ n ih =>
    rw [List.range_succ, List.filter_append, List.length_append, ih]
    by_cases h : n < k <;> simp [h] <;> omega

/-- Claim C2: with `kind = "none"` or a non-positive fraction every client is
labeled honest; otherwise the clients below `cutoff = floor(total * fraction)`
are exactly the malicious ones and all others honest; consequently, in the
attack-active case with a fraction in [0, 1], the number of malicious labels
over a round of `total` clients is exactly `floor(total * fraction)`. (The
counting statement is read in the scope of the claim's `otherwise` branch,
`kind ≠ "none"`, since with `kind = "none"` the same claim makes every label
honest.) -/
theorem C2_attack_labels (idx total : ℕ) (ac : AttackConfig)
    (h0 : 0 ≤ ac.fraction_malicious) (h1 : ac.fraction_malicious ≤ 1) :
    ((ac.kind = "none" ∨ ac.fraction_malicious ≤ 0) →
       label_for_client idx total ac = "honest") ∧
    (ac.kind ≠ "none" → 0 < ac.fraction_malicious →
       label_for_client idx total ac =
         if (idx : ℤ) < ⌊(total : ℚ) * ac.fraction_malicious⌋ then "malicious"
         else "honest") ∧
    (ac.kind ≠ "none" →
       ((List.range total).filter
          (fun i => label_for_client i total ac == "malicious")).length =
         (⌊(total : ℚ) * ac.fraction_malicious⌋).toNat) := by
  refine ⟨?_, ?_, ?_⟩
  · intro h
    simp only [label_for_client]
    rw [if_pos h]
  · intro hk hf
    simp only [label_for_client]
    rw [if_neg (not_or.mpr ⟨hk, not_le.mpr hf⟩)]
  · intro hk
    by_cases hf : ac.fraction_malicious ≤ 0
    · have hf0 : ac.fraction_malicious = 0 := le_antisymm hf h0
      have hfl : (⌊(total : ℚ) * ac.fraction_malicious⌋ : ℤ) = 0 := by
        rw [hf0, mul_zero, Int.floor_zero]
      rw [hfl, Int.toNat_zero, List.length_eq_zero]
      rw [List.filter_eq_nil_iff]
      intro i _
      simp only [label_for_client]
      rw [if_pos (Or.inr hf)]
      simp
    · have hpos : 0 < ac.fraction_malicious := not_le.mp hf
      have hcut0 : 0 ≤ (⌊(total : ℚ) * ac.fraction_malicious⌋ : ℤ) :=
        Int.floor_nonneg.mpr (mul_nonneg (Nat.cast_nonneg total) h0)
      have hcutle : (⌊(total : ℚ) * ac.fraction_malicious⌋ : ℤ) ≤ (total : ℤ) := by
        have hle : (total : ℚ) * ac.fraction_malicious ≤ (total : ℚ) :=
          mul_le_of_le_one_right (Nat.cast_nonneg total) h1
        calc (⌊(total : ℚ) * ac.fraction_malicious⌋ : ℤ)
            ≤ ⌊((total : ℕ) : ℚ)⌋ := Int.floor_le_floor hle
          _ = (total : ℤ) := Int.floor_natCast total
      have hcle : (⌊(total : ℚ) * ac.fraction_malicious⌋).toNat ≤ total :=
        Int.toNat_le.mpr hcutle
      have hpt : ∀ i ∈ List.range total,
          (label_for_client i total ac == "malicious") =
            decide (i < (⌊(total : ℚ) * ac.fraction_malicious⌋).toNat) := by
        intro i _
        simp only [label_for_client]
        rw [if_neg (not_or.mpr ⟨hk, not_le.mpr hpos⟩)]
        by_cases hic : (i : ℤ) < ⌊(total : ℚ) * ac.fraction_malicious⌋
        · rw [if_pos hic]
          have hi2 : i < (⌊(total : ℚ) * ac.fraction_malicious⌋).toNat :=
            Int.lt_toNat.mpr hic
          simp [hi2]
        · rw [if_neg hic]
          have hi2 : ¬ i < (⌊(total : ℚ) * ac.fraction_malicious⌋).toNat :=
            fun hlt => hic (Int.lt_toNat.mp hlt)
          simp [hi2]
      rw [List.filter_congr hpt, length_filter_range_lt]
      exact min_eq_left hcle

/-- Witness for C2: the spec scenario, four clients with a scaling attack at
fraction one quarter; the cutoff is 1, client 0 is malicious, the malicious
count is 1. -/
theorem C2_witness :
    (0 ≤ acScaling.fraction_malicious ∧ acScaling.fraction_malicious ≤ 1) ∧
    (((acScaling.kind = "none" ∨ acScaling.fraction_malicious ≤ 0) →
        label_for_client 0 4 acScaling = "honest") ∧
     (acScaling.kind ≠ "none" → 0 < acScaling.fraction_malicious →
        label_for_client 0 4 acScaling =
          if ((0 : ℕ) : ℤ) < ⌊((4 : ℕ) : ℚ) * acScaling.fraction_malicious⌋
          then "malicious" else "honest") ∧
     (acScaling.kind ≠ "none" →
        ((List.range 4).filter
           (fun i => label_for_client i 4 acScaling == "malicious")).length =
          (⌊((4 : ℕ) : ℚ) * acScaling.fraction_malicious⌋).toNat)) :=
  ⟨⟨by with_unfolding_all decide, by with_unfolding_all decide⟩,
   C2_attack_labels 0 4 acScaling (by with_unfolding_all decide)
     (by with_unfolding_all decide)⟩
